import Mathlib

/-!
Verification of the Atlas map-extraction pipeline (Backend-Atlas).

This file gives a shallow embedding, in Lean 4, of the parts of the
Backend-Atlas Python code that the specification claims talk about:

* the WebMercator forward/inverse helpers of
  app/utils/georeferencing.py, app/utils/georeferencingSift.py and
  app/utils/coastline_snapping.py (they are textually identical in the
  three modules);
* the affine branch of the coordinate rewriting and the property
  updates done by georeference_features_with_sift_points;
* the transform-method dispatch of georeference_features_with_sift_points;
* the exclusive nearest-center pixel assignment of
  app/utils/color_extraction.py (build_exclusive_masks_by_nearest_center);
* the preprocessing pipeline of app/utils/color_extraction.py
  (preprocess), embedded symbolically: every external image operation
  (skimage call) becomes a constructor of an expression type, so the
  data flow and the exact sequence of applied operations of the Python
  function are captured syntactically;
* the control flow of extract_colors in app/utils/color_extraction.py;
* the gazetteer lookup of app/utils/cities_validation.py and the
  per-token city-feature loop of app/tasks.py;
* the file-extension validation of app/utils/file_utils.py and the
  decode/validate ordering of app/tasks.py;
* the selective coastline snapping of app/utils/coastline_snapping.py.

Numeric code is embedded over the reals (the Python code computes with
floats; the claims under study are stated in real arithmetic).  Purely
structural code (dispatch, gazetteer lookup, tokenization, traces) is
embedded computably over decidable types so that concrete runs can be
checked by the kernel.  External collaborators (shapely nearest-point
queries, the CIEDE2000 distance of skimage) enter as explicit function
parameters: the theorems hold for every behaviour of the collaborator,
which is exactly what the Python code guarantees.
-/

namespace Atlas

/- ------------------------------------------------------------------ -/
/- WebMercator helpers (georeferencing.py lines 17-35,
   georeferencingSift.py lines 17-52, coastline_snapping.py 13-28).   -/
/- ------------------------------------------------------------------ -/

/-- Earth radius in meters, the constant R_EARTH = 6378137.0 of the source. -/
def R_EARTH : ℝ := 6378137

/-- Python math.radians: degrees to radians. -/
noncomputable def radians (d : ℝ) : ℝ := d * Real.pi / 180

/-- Python math.degrees: radians to degrees. -/
noncomputable def degrees (r : ℝ) : ℝ := r * 180 / Real.pi

/-- The latitude clamp max(min(lat, 89.9), -89.9) performed inside
lonlat_to_webmercator (source comment: clamp latitude for numerical
stability). -/
noncomputable def clampLat (lat : ℝ) : ℝ := max (min lat 89.9) (-89.9)

/-- Embedding of the source function lonlat_to_webmercator:
x = radians(lon) * R_EARTH and
y = log(tan(pi/4 + radians(clamped lat)/2)) * R_EARTH. -/
noncomputable def lonlat_to_webmercator (lon lat : ℝ) : ℝ × ℝ :=
  (radians lon * R_EARTH,
   Real.log (Real.tan (Real.pi / 4 + radians (clampLat lat) / 2)) * R_EARTH)

/-- Embedding of the source function webmercator_to_lonlat:
lon = degrees(x / R_EARTH) and
lat = degrees(2 * atan(exp(y / R_EARTH)) - pi/2). -/
noncomputable def webmercator_to_lonlat (x y : ℝ) : ℝ × ℝ :=
  (degrees (x / R_EARTH),
   degrees (2 * Real.arctan (Real.exp (y / R_EARTH)) - Real.pi / 2))

lemma R_EARTH_pos : (0 : ℝ) < R_EARTH := by norm_num [R_EARTH]

lemma R_EARTH_ne_zero : R_EARTH ≠ 0 := ne_of_gt R_EARTH_pos

/-- For latitudes already inside the clamp window the clamp is the identity. -/
lemma clampLat_eq_self {lat : ℝ} (h1 : -89.9 ≤ lat) (h2 : lat ≤ 89.9) :
    clampLat lat = lat := by
  unfold clampLat
  rw [min_eq_left h2, max_eq_left h1]

lemma clampLat_mem (lat : ℝ) : -89.9 ≤ clampLat lat ∧ clampLat lat ≤ 89.9 := by
  constructor
  · exact le_max_right _ _
  · exact max_le (min_le_right _ _) (by norm_num)

lemma clampLat_idem (lat : ℝ) : clampLat (clampLat lat) = clampLat lat :=
  clampLat_eq_self (clampLat_mem lat).1 (clampLat_mem lat).2

/-- degrees is a left inverse of radians. -/
lemma degrees_radians (d : ℝ) : degrees (radians d) = d := by
  unfold degrees radians
  field_simp

/-- The mercator angle pi/4 + radians(lat)/2 lies strictly between 0 and pi/2
whenever the latitude is strictly between -90 and 90 degrees. -/
lemma merc_angle_bounds {lat : ℝ} (h1 : -90 < lat) (h2 : lat < 90) :
    0 < Real.pi / 4 + radians lat / 2 ∧
      Real.pi / 4 + radians lat / 2 < Real.pi / 2 := by
  have hpi : (0 : ℝ) < Real.pi := Real.pi_pos
  have hlow : -(Real.pi / 2) < radians lat := by
    unfold radians
    nlinarith
  have hhigh : radians lat < Real.pi / 2 := by
    unfold radians
    nlinarith
  constructor <;> nlinarith

/-- C10 core: the analytic inverse recovers the latitude on the open
strip, provided it was not clamped. -/
lemma webmercator_lat_roundtrip {lat : ℝ} (h1 : -90 < lat) (h2 : lat < 90) :
    degrees (2 * Real.arctan
        (Real.exp (Real.log (Real.tan (Real.pi / 4 + radians lat / 2)) * R_EARTH / R_EARTH))
      - Real.pi / 2) = lat := by
  obtain ⟨hb1, hb2⟩ := merc_angle_bounds h1 h2
  have htan : 0 < Real.tan (Real.pi / 4 + radians lat / 2) :=
    Real.tan_pos_of_pos_of_lt_pi_div_two hb1 hb2
  rw [mul_div_assoc, div_self R_EARTH_ne_zero, mul_one, Real.exp_log htan,
    Real.arctan_tan (by linarith) hb2]
  have : 2 * (Real.pi / 4 + radians lat / 2) - Real.pi / 2 = radians lat := by ring
  rw [this, degrees_radians]

/-- C10: for every longitude, and every latitude in [-89.9, 89.9], the
WebMercator inverse composed with the WebMercator forward map is the
identity in real arithmetic; and for every latitude whatsoever the forward
map agrees with the forward map of the clamped latitude (so the function is
total: outside the window it behaves as if the latitude were +-89.9). -/
theorem C10_webmercator_roundtrip_and_clamp (lon lat : ℝ) :
    (-89.9 ≤ lat → lat ≤ 89.9 →
      webmercator_to_lonlat (lonlat_to_webmercator lon lat).1
        (lonlat_to_webmercator lon lat).2 = (lon, lat)) ∧
    lonlat_to_webmercator lon lat = lonlat_to_webmercator lon (clampLat lat) := by
  constructor
  · intro h1 h2
    unfold lonlat_to_webmercator webmercator_to_lonlat
    rw [clampLat_eq_self h1 h2]
    have hx : radians lon * R_EARTH / R_EARTH = radians lon := by
      rw [mul_div_assoc, div_self R_EARTH_ne_zero, mul_one]
    rw [Prod.mk.injEq]
    refine ⟨by rw [hx, degrees_radians], ?_⟩
    exact webmercator_lat_roundtrip (by linarith) (by linarith)
  · unfold lonlat_to_webmercator
    rw [clampLat_idem]

/-- Witness for C10 at the concrete input lon = 3, lat = 45. -/
theorem C10_witness :
    (-89.9 ≤ (45 : ℝ)) ∧ ((45 : ℝ) ≤ 89.9) ∧
      webmercator_to_lonlat (lonlat_to_webmercator 3 45).1
        (lonlat_to_webmercator 3 45).2 = (3, 45) :=
  ⟨by norm_num, by norm_num,
    (C10_webmercator_roundtrip_and_clamp 3 45).1 (by norm_num) (by norm_num)⟩

/- ------------------------------------------------------------------ -/
/- Georeferencer output (georeferencingSift.py lines 419-507).        -/
/- ------------------------------------------------------------------ -/

/-- A 3x3 transformation matrix whose last row is (0,0,1), as produced by
build_affine_from_point_pairs (the 2x3 cv2 result stacked with (0,0,1)). -/
structure AffineMatrix where
  a11 : ℝ
  a12 : ℝ
  a13 : ℝ
  a21 : ℝ
  a22 : ℝ
  a23 : ℝ

/-- The affine branch of matrix_transform inside
georeference_features_with_sift_points (lines 421-438): homogeneous
multiplication without the perspective divide. -/
noncomputable def matrix_transform_affine (M : AffineMatrix) (p : ℝ × ℝ) : ℝ × ℝ :=
  (M.a11 * p.1 + M.a12 * p.2 + M.a13, M.a21 * p.1 + M.a22 * p.2 + M.a23)

/-- The full per-coordinate rewriting pixel -> WebMercator -> WGS84 done by
the transform(_to_3857) / transform(_to_lonlat) composition (lines 442-482)
for the affine transform type. -/
noncomputable def georefPointAffine (M : AffineMatrix) (p : ℝ × ℝ) : ℝ × ℝ :=
  webmercator_to_lonlat (matrix_transform_affine M p).1 (matrix_transform_affine M p).2

/-- A GeoJSON property value (string, boolean or number), for the
per-feature property bag. -/
inductive PropVal where
  | str (s : String)
  | boolean (b : Bool)
  | num (q : ℚ)
deriving DecidableEq

/-- The property updates of georeference_features_with_sift_points lines
488-492: props(is_pixel_space) = False, props(is_georeferenced) = True,
props(crs) = EPSG:4326 and props(transform_method) = the chosen method,
on top of the incoming property bag. -/
def updateGeorefProps (props : String → Option PropVal) (method : String) :
    String → Option PropVal := fun k =>
  if k = "is_pixel_space" then some (PropVal.boolean false)
  else if k = "is_georeferenced" then some (PropVal.boolean true)
  else if k = "crs" then some (PropVal.str "EPSG:4326")
  else if k = "transform_method" then some (PropVal.str method)
  else props k

/-- The output latitude of the analytic mercator inverse is always in the
open interval (-90, 90): atan of a positive number lies in (0, pi/2). -/
lemma webmercator_lat_bounds (y : ℝ) :
    -90 < (webmercator_to_lonlat 0 y).2 ∧ (webmercator_to_lonlat 0 y).2 < 90 := by
  unfold webmercator_to_lonlat degrees
  have hpi : (0 : ℝ) < Real.pi := Real.pi_pos
  have h1 : 0 < Real.arctan (Real.exp (y / R_EARTH)) := by
    rw [← Real.arctan_zero]
    exact Real.arctan_strictMono (Real.exp_pos _)
  have h2 : Real.arctan (Real.exp (y / R_EARTH)) < Real.pi / 2 :=
    Real.arctan_lt_pi_div_two _
  constructor
  · simp only
    rw [lt_div_iff₀ hpi]
    nlinarith
  · simp only
    rw [div_lt_iff₀ hpi]
    nlinarith

/-- C4 (amended): every feature rewritten by the georeferencer carries
crs = EPSG:4326, is_georeferenced = true, is_pixel_space = false, and its
latitudes always lie in the open interval (-90, 90); the longitude, by
contrast, is degrees(x / R_EARTH) with no wrap or clamp, so the claimed
[-180, 180] bound is not enforced (see the counterexample). -/
theorem C4_georef_props_and_lat_bounds (M : AffineMatrix) (p : ℝ × ℝ)
    (props : String → Option PropVal) (method : String) :
    updateGeorefProps props method "crs" = some (PropVal.str "EPSG:4326") ∧
    updateGeorefProps props method "is_georeferenced" = some (PropVal.boolean true) ∧
    updateGeorefProps props method "is_pixel_space" = some (PropVal.boolean false) ∧
    -90 < (georefPointAffine M p).2 ∧ (georefPointAffine M p).2 < 90 := by
  refine ⟨rfl, rfl, rfl, ?_, ?_⟩
  · exact (webmercator_lat_bounds (matrix_transform_affine M p).2).1
  · exact (webmercator_lat_bounds (matrix_transform_affine M p).2).2

/-- The identity transformation matrix (a transform the affine solver can
return, e.g. when the control pairs already live in mercator coordinates). -/
def idAffineMatrix : AffineMatrix := ⟨1, 0, 0, 0, 1, 0⟩

/-- C4 counterexample: under the identity transform the pixel coordinate
(40000000, 0) is rewritten to a longitude strictly greater than 180
degrees, so the coordinates of a georeferenced feature need not lie in
[-180, 180] x [-90, 90]. -/
theorem C4_counterexample :
    180 < (georefPointAffine idAffineMatrix (40000000, 0)).1 := by
  unfold georefPointAffine matrix_transform_affine idAffineMatrix
  unfold webmercator_to_lonlat degrees
  simp only
  have hpi : (0 : ℝ) < Real.pi := Real.pi_pos
  rw [lt_div_iff₀ hpi]
  have hlt : Real.pi < 3.15 := Real.pi_lt_d2
  have : ((1 : ℝ) * 40000000 + 0 * 0 + 0) / R_EARTH = 40000000 / 6378137 := by
    norm_num [R_EARTH]
  rw [this]
  nlinarith

/- ------------------------------------------------------------------ -/
/- Transform-method dispatch (georeferencingSift.py lines 392-417,
   with the minimum-count guards of build_tps_from_point_pairs line 313,
   build_homography_from_point_pairs line 106 and
   build_affine_from_point_pairs line 194).                           -/
/- ------------------------------------------------------------------ -/

/-- The transformation family chosen by the georeferencer. -/
inductive TransformMethod where
  | tps
  | homography
  | affine
deriving DecidableEq, Repr

/-- The georeferencing errors raised by the builder functions: the
ValueError (at least N point pairs are required) guards. -/
inductive GeorefError where
  | insufficientControlPoints (required : ℕ) (supplied : ℕ)
deriving DecidableEq, Repr

/-- Result of the method dispatch: the chosen method, together with
whether the TPS too-few-points warning (line 394-398: fewer than 7 pairs)
was logged. -/
structure MethodSelection where
  method : TransformMethod
  tpsFewPointsWarning : Bool
deriving DecidableEq, Repr

/-- Embedding of the transform choice in
georeference_features_with_sift_points (lines 392-417): use_tps first
(build_tps raising when fewer than 3 pairs, warning when fewer than 7);
otherwise homography when use_homography and at least 4 pairs
(build_homography requires 4); otherwise the affine fallback
(build_affine raising when fewer than 3 pairs). -/
def selectTransformMethod (numPairs : ℕ) (useTps useHomography : Bool) :
    Except GeorefError MethodSelection :=
  if useTps then
    if numPairs < 3 then Except.error (GeorefError.insufficientControlPoints 3 numPairs)
    else Except.ok ⟨TransformMethod.tps, decide (numPairs < 7)⟩
  else if useHomography && decide (4 ≤ numPairs) then
    Except.ok ⟨TransformMethod.homography, false⟩
  else if numPairs < 3 then
    Except.error (GeorefError.insufficientControlPoints 3 numPairs)
  else Except.ok ⟨TransformMethod.affine, false⟩

/-- C7: fewer than 3 control pairs always raises the insufficient-points
error; 3 pairs (or forcing affine with at least 3 pairs) selects affine;
4 or more pairs under the default homography preference selects
homography; forcing TPS with at least 3 pairs selects TPS, emitting the
warning exactly when fewer than 7 pairs are supplied. -/
theorem C7_transform_method_selection (n : ℕ) (useTps useHomography : Bool) :
    (n < 3 → selectTransformMethod n useTps useHomography =
       Except.error (GeorefError.insufficientControlPoints 3 n)) ∧
    (useTps = false → n = 3 → selectTransformMethod n useTps useHomography =
       Except.ok ⟨TransformMethod.affine, false⟩) ∧
    (useTps = false → useHomography = false → 3 ≤ n →
       selectTransformMethod n useTps useHomography =
         Except.ok ⟨TransformMethod.affine, false⟩) ∧
    (useTps = false → useHomography = true → 4 ≤ n →
       selectTransformMethod n useTps useHomography =
         Except.ok ⟨TransformMethod.homography, false⟩) ∧
    (useTps = true → 3 ≤ n →
       selectTransformMethod n useTps useHomography =
         Except.ok ⟨TransformMethod.tps, decide (n < 7)⟩) := by
  unfold selectTransformMethod
  refine ⟨?_, ?_, ?_, ?_, ?_⟩
  · intro h
    have h4 : ¬ (4 ≤ n) := by omega
    cases useTps <;> cases useHomography <;> simp [h, h4]
  · intro ht hn
    subst ht hn
    cases useHomography <;> simp
  · intro ht hh hn
    subst ht hh
    simp [Nat.not_lt.mpr hn]
  · intro ht hh hn
    subst ht hh
    simp [hn]
  · intro ht hn
    subst ht
    simp [Nat.not_lt.mpr hn]

/-- Witness for C7 at concrete inputs: 3 pairs with the default flags
select affine, and 2 pairs raise the insufficient-points error. -/
theorem C7_witness :
    ((3 : ℕ) = 3 →
      selectTransformMethod 3 false true = Except.ok ⟨TransformMethod.affine, false⟩) ∧
    selectTransformMethod 2 false true =
      Except.error (GeorefError.insufficientControlPoints 3 2) :=
  ⟨fun _ => (C7_transform_method_selection 3 false true).2.1 rfl rfl,
   (C7_transform_method_selection 2 false true).1 (by decide)⟩

/- ------------------------------------------------------------------ -/
/- Exclusive nearest-center assignment
   (color_extraction.py lines 448-476).                               -/
/- ------------------------------------------------------------------ -/

/-- np.argmin bookkeeping: walk the list keeping the index of the first
minimum seen so far (numpy returns the first occurrence on ties, so a
later element replaces the current best only when strictly smaller). -/
def npArgminAux {α : Type} [LinearOrder α] : List α → ℕ → ℕ × α → ℕ
  | [], _, best => best.1
  | x :: xs, i, best =>
      if x < best.2 then npArgminAux xs (i + 1) (i, x) else npArgminAux xs (i + 1) best

/-- np.argmin over a list of distances (0 on the empty list, which numpy
rejects; build_exclusive_masks_by_nearest_center is only called with a
non-empty center list). -/
def npArgmin {α : Type} [LinearOrder α] : List α → ℕ
  | [] => 0
  | x :: xs => npArgminAux xs 1 (0, x)

/-- np.min over a list of distances. -/
def npMin {α : Type} [LinearOrder α] : List α → Option α
  | [] => none
  | x :: xs => some (xs.foldl min x)

/-- The per-pixel stack of distances dist_stack(p) = (deltaE(lab p, c))
for c over the selected centers (lines 463-469); the CIEDE2000 metric of
skimage is an external collaborator, passed in as dE. -/
def deltaEStack {Lab α : Type} (dE : Lab → Lab → α) (centers : List Lab) (v : Lab) :
    List α :=
  centers.map (fun c => dE v c)

/-- best_idx = np.argmin(dist_stack, axis=-1) at one pixel (line 471). -/
def bestIdx {P Lab α : Type} [LinearOrder α] (dE : Lab → Lab → α) (lab : P → Lab)
    (centers : List Lab) (p : P) : ℕ :=
  npArgmin (deltaEStack dE centers (lab p))

/-- valid = (best_dE <= mask_deltaE) & opaque_mask at one pixel
(lines 472-474), with best_dE = np.min(dist_stack, axis=-1). -/
def validPixel {P Lab α : Type} [LinearOrder α] (dE : Lab → Lab → α) (lab : P → Lab)
    (alphaMask : P → Bool) (centers : List Lab) (maskDeltaE : α) (p : P) : Prop :=
  (∃ m, npMin (deltaEStack dE centers (lab p)) = some m ∧ m ≤ maskDeltaE) ∧
    alphaMask p = true

/-- The pixel set of layer k: mask = (best_idx == k) & valid, exactly the
per-layer masks built from the outputs of
build_exclusive_masks_by_nearest_center. -/
def exclusiveMask {P Lab α : Type} [LinearOrder α] (dE : Lab → Lab → α) (lab : P → Lab)
    (alphaMask : P → Bool) (centers : List Lab) (maskDeltaE : α) (k : ℕ) (p : P) :
    Prop :=
  bestIdx dE lab centers p = k ∧ validPixel dE lab alphaMask centers maskDeltaE p

/-- C6: for every LAB image, validity mask and non-empty list of selected
centers, the exclusive nearest-center masks are pairwise disjoint and
each of them is a subset of the validity mask (hence so is their union). -/
theorem C6_exclusive_masks_disjoint_and_within_mask
    {P Lab α : Type} [LinearOrder α] (dE : Lab → Lab → α) (lab : P → Lab)
    (alphaMask : P → Bool) (centers : List Lab) (maskDeltaE : α)
    (_hne : centers ≠ []) :
    (∀ j k : ℕ, j ≠ k → ∀ p : P,
       ¬(exclusiveMask dE lab alphaMask centers maskDeltaE j p ∧
         exclusiveMask dE lab alphaMask centers maskDeltaE k p)) ∧
    (∀ (k : ℕ) (p : P),
       exclusiveMask dE lab alphaMask centers maskDeltaE k p → alphaMask p = true) := by
  constructor
  · intro j k hjk p hboth
    exact hjk (hboth.1.1.symm.trans hboth.2.1)
  · intro k p hmem
    exact hmem.2.2

/-- Witness for C6 at a concrete one-center instance over rational
distances. -/
theorem C6_witness :
    (([(0 : ℚ)] : List ℚ) ≠ []) ∧
    ((∀ j k : ℕ, j ≠ k → ∀ p : Unit,
        ¬(exclusiveMask (fun a b : ℚ => |a - b|) (fun _ => 0) (fun _ => true) [0] 10 j p ∧
          exclusiveMask (fun a b : ℚ => |a - b|) (fun _ => 0) (fun _ => true) [0] 10 k p)) ∧
     (∀ (k : ℕ) (p : Unit),
        exclusiveMask (fun a b : ℚ => |a - b|) (fun _ => 0) (fun _ => true) [0] 10 k p →
          (fun _ : Unit => true) p = true)) :=
  ⟨by simp,
   C6_exclusive_masks_disjoint_and_within_mask
     (fun a b : ℚ => |a - b|) (fun _ => 0) (fun _ => true) [0] 10 (by simp)⟩

/- ------------------------------------------------------------------ -/
/- Selective coastline snapping (coastline_snapping.py).              -/
/- ------------------------------------------------------------------ -/

open scoped Classical in
/-- The mercator distance in kilometers between two lon/lat points, as
computed throughout coastline_snapping.py (lines 82-90, 122-129,
189-198): project both points with lonlat_to_webmercator, take the
Euclidean distance in meters, divide by 1000. -/
noncomputable def mercDistKm (p q : ℝ × ℝ) : ℝ :=
  Real.sqrt (((lonlat_to_webmercator p.1 p.2).1 - (lonlat_to_webmercator q.1 q.2).1) ^ 2 +
      ((lonlat_to_webmercator p.1 p.2).2 - (lonlat_to_webmercator q.1 q.2).2) ^ 2) / 1000

/-- snap_point_to_coastline (lines 61-97): move the point to the nearest
point of the reference coastline when the mercator distance to it is at
most max_snap_distance_km, else keep the original.  The nearest-point
query (shapely nearest_points on the reference MultiLineString) is an
external collaborator, passed in as nearestOnRef. -/
noncomputable def snap_point_to_coastline (nearestOnRef : ℝ × ℝ → ℝ × ℝ)
    (maxSnapKm : ℝ) (p : ℝ × ℝ) : ℝ × ℝ :=
  if mercDistKm p (nearestOnRef p) ≤ maxSnapKm then nearestOnRef p else p

/-- The first check of the per-vertex loop (lines 186-202): the vertex is
in a coastline region when some marker is within sift_proximity_km. -/
def isNearSift (markers : List (ℝ × ℝ)) (proxKm : ℝ) (p : ℝ × ℝ) : Prop :=
  ∃ m ∈ markers, mercDistKm p m ≤ proxKm

/-- is_point_actually_on_coastline (lines 100-131): the vertex is close
enough to the reference coastline (distance at most the given bound). -/
def isOnCoastline (nearestOnRef : ℝ × ℝ → ℝ × ℝ) (bound : ℝ) (p : ℝ × ℝ) : Prop :=
  mercDistKm p (nearestOnRef p) ≤ bound

open scoped Classical in
/-- One iteration of the vertex loop of
_snap_linestring_coordinates_selective (lines 186-227): snap only when
the vertex is near a SIFT marker AND within 2 * max_snap_distance_km of
the reference coastline; otherwise append the original vertex. -/
noncomputable def snapVertexSelective (nearestOnRef : ℝ × ℝ → ℝ × ℝ)
    (markers : List (ℝ × ℝ)) (maxSnapKm proxKm : ℝ) (p : ℝ × ℝ) : ℝ × ℝ :=
  if isNearSift markers proxKm p ∧ isOnCoastline nearestOnRef (maxSnapKm * 2) p then
    snap_point_to_coastline nearestOnRef maxSnapKm p
  else p

open scoped Classical in
/-- The inner loop of _remove_duplicate_consecutive_points (lines
146-153): keep a vertex only when it differs from the last kept vertex by
more than 1e-9 in some coordinate. -/
noncomputable def dedupAux : ℝ × ℝ → List (ℝ × ℝ) → List (ℝ × ℝ)
  | _, [] => []
  | prev, c :: rest =>
      if 1e-9 < |c.1 - prev.1| ∨ 1e-9 < |c.2 - prev.2| then c :: dedupAux c rest
      else dedupAux prev rest

/-- _remove_duplicate_consecutive_points (lines 134-153). -/
noncomputable def remove_duplicate_consecutive_points : List (ℝ × ℝ) → List (ℝ × ℝ)
  | [] => []
  | c :: rest => c :: dedupAux c rest

/-- _snap_linestring_coordinates_selective (lines 156-232), coordinates
part: map the selective per-vertex snap over the ring, then collapse
consecutive duplicates. -/
noncomputable def snap_linestring_coordinates_selective
    (nearestOnRef : ℝ × ℝ → ℝ × ℝ) (markers : List (ℝ × ℝ))
    (maxSnapKm proxKm : ℝ) (coords : List (ℝ × ℝ)) : List (ℝ × ℝ) :=
  remove_duplicate_consecutive_points
    (coords.map (snapVertexSelective nearestOnRef markers maxSnapKm proxKm))

open scoped Classical in
/-- The num_snapped counter of the same loop: a vertex is counted exactly
when the snapped coordinate differs from the original (the code only
increments inside the snap branch, and outside that branch the appended
vertex equals the original, so the two descriptions agree). -/
noncomputable def numSnapped (nearestOnRef : ℝ × ℝ → ℝ × ℝ) (markers : List (ℝ × ℝ))
    (maxSnapKm proxKm : ℝ) (coords : List (ℝ × ℝ)) : ℕ :=
  (coords.filter
    (fun c => decide (snapVertexSelective nearestOnRef markers maxSnapKm proxKm c ≠ c))).length

/-- A polygon as handled by refine_coastline_features: an exterior ring
and a list of interior rings. -/
structure PolygonG where
  exterior : List (ℝ × ℝ)
  interiors : List (List (ℝ × ℝ))

/-- The Polygon branch of refine_coastline_features (lines 312-324):
selectively snap the exterior ring, preserve interior rings (holes)
without snapping. -/
noncomputable def refinePolygonGeometry (nearestOnRef : ℝ × ℝ → ℝ × ℝ)
    (markers : List (ℝ × ℝ)) (maxSnapKm proxKm : ℝ) (poly : PolygonG) : PolygonG :=
  ⟨snap_linestring_coordinates_selective nearestOnRef markers maxSnapKm proxKm poly.exterior,
   poly.interiors⟩

/-- C8: a vertex far (in mercator km) from every marker is kept
bit-identical; a vertex farther than 2 * max_snap_distance from the
reference coastline is kept bit-identical; a vertex passing both checks
moves to the nearest reference point exactly when that nearest distance
is at most max_snap_distance, else is kept; and the interior rings of a
polygon are never modified. -/
theorem C8_selective_snap_decision (nearestOnRef : ℝ × ℝ → ℝ × ℝ)
    (markers : List (ℝ × ℝ)) (maxSnapKm proxKm : ℝ) (c : ℝ × ℝ) (poly : PolygonG) :
    ((∀ m ∈ markers, proxKm < mercDistKm c m) →
       snapVertexSelective nearestOnRef markers maxSnapKm proxKm c = c) ∧
    (maxSnapKm * 2 < mercDistKm c (nearestOnRef c) →
       snapVertexSelective nearestOnRef markers maxSnapKm proxKm c = c) ∧
    (isNearSift markers proxKm c → mercDistKm c (nearestOnRef c) ≤ maxSnapKm * 2 →
       snapVertexSelective nearestOnRef markers maxSnapKm proxKm c =
         (if mercDistKm c (nearestOnRef c) ≤ maxSnapKm then nearestOnRef c else c)) ∧
    (refinePolygonGeometry nearestOnRef markers maxSnapKm proxKm poly).interiors =
      poly.interiors := by
  refine ⟨?_, ?_, ?_, rfl⟩
  · intro hfar
    unfold snapVertexSelective
    rw [if_neg]
    rintro ⟨⟨m, hm, hle⟩, -⟩
    exact absurd hle (not_le.mpr (hfar m hm))
  · intro hfar
    unfold snapVertexSelective
    rw [if_neg]
    rintro ⟨-, hon⟩
    exact absurd hon (not_le.mpr hfar)
  · intro hnear hon
    unfold snapVertexSelective
    rw [if_pos ⟨hnear, hon⟩]
    rfl

/-- Witness for C8 at a concrete input: with no markers every vertex is
kept unchanged. -/
theorem C8_witness :
    (∀ m ∈ ([] : List (ℝ × ℝ)), (25 : ℝ) < mercDistKm (0, 0) m) ∧
      snapVertexSelective (fun p => p) [] 10 25 (0, 0) = (0, 0) :=
  ⟨by simp,
   (C8_selective_snap_decision (fun p => p) [] 10 25 (0, 0) ⟨[], []⟩).1 (by simp)⟩

lemma mercDistKm_self (p : ℝ × ℝ) : mercDistKm p p = 0 := by
  unfold mercDistKm
  rw [sub_self, sub_self]
  norm_num

/-- Vertices fixed by the per-vertex snap stay fixed when snapped again;
a snapped vertex lands on the reference coastline and is a fixed point of
the nearest-point query, so snapping it again returns it unchanged. -/
lemma snapVertexSelective_idem (nearestOnRef : ℝ × ℝ → ℝ × ℝ)
    (hproj : ∀ p, nearestOnRef (nearestOnRef p) = nearestOnRef p)
    (markers : List (ℝ × ℝ)) (maxSnapKm proxKm : ℝ) (c : ℝ × ℝ) :
    snapVertexSelective nearestOnRef markers maxSnapKm proxKm
      (snapVertexSelective nearestOnRef markers maxSnapKm proxKm c) =
    snapVertexSelective nearestOnRef markers maxSnapKm proxKm c := by
  unfold snapVertexSelective snap_point_to_coastline
  by_cases hc : isNearSift markers proxKm c ∧ isOnCoastline nearestOnRef (maxSnapKm * 2) c
  · rw [if_pos hc]
    by_cases hdc : mercDistKm c (nearestOnRef c) ≤ maxSnapKm
    · rw [if_pos hdc, hproj c, mercDistKm_self, ite_self, ite_self]
    · rw [if_neg hdc, if_pos hc, if_neg hdc]
  · rw [if_neg hc, if_neg hc]

/-- A list all of whose members are fixed by f is fixed by List.map f. -/
lemma map_eq_self_of_fixed {α : Type} (f : α → α) :
    ∀ l : List α, (∀ x ∈ l, f x = x) → l.map f = l
  | [], _ => rfl
  | x :: xs, h => by
      simp only [List.map_cons]
      rw [h x (List.mem_cons_self x xs),
        map_eq_self_of_fixed f xs (fun y hy => h y (List.mem_cons_of_mem x hy))]

/-- Every vertex kept by the duplicate-collapsing loop comes from the
input ring. -/
lemma mem_of_mem_dedupAux :
    ∀ (l : List (ℝ × ℝ)) (prev x : ℝ × ℝ), x ∈ dedupAux prev l → x ∈ l
  | [], _, _, h => by simp [dedupAux] at h
  | c :: rest, prev, x, h => by
      rw [dedupAux] at h
      split at h
      · rcases List.mem_cons.mp h with h1 | h1
        · exact h1 ▸ List.mem_cons_self c rest
        · exact List.mem_cons_of_mem c (mem_of_mem_dedupAux rest c x h1)
      · exact List.mem_cons_of_mem c (mem_of_mem_dedupAux rest prev x h)

lemma mem_of_mem_dedup {l : List (ℝ × ℝ)} {x : ℝ × ℝ}
    (h : x ∈ remove_duplicate_consecutive_points l) : x ∈ l := by
  cases l with
  | nil => simp [remove_duplicate_consecutive_points] at h
  | cons c rest =>
      rw [remove_duplicate_consecutive_points] at h
      rcases List.mem_cons.mp h with h1 | h1
      · exact h1 ▸ List.mem_cons_self c rest
      · exact List.mem_cons_of_mem c (mem_of_mem_dedupAux rest c x h1)

/-- Two consecutive vertices are separated when they differ by more than
1e-9 in some coordinate (the keep condition of the collapsing loop). -/
def FarApart (a b : ℝ × ℝ) : Prop := 1e-9 < |b.1 - a.1| ∨ 1e-9 < |b.2 - a.2|

lemma chain_dedupAux :
    ∀ (l : List (ℝ × ℝ)) (prev : ℝ × ℝ), List.Chain FarApart prev (dedupAux prev l)
  | [], prev => by simp [dedupAux]
  | c :: rest, prev => by
      rw [dedupAux]
      split
      · exact List.Chain.cons (by assumption) (chain_dedupAux rest c)
      · exact chain_dedupAux rest prev

lemma dedupAux_eq_of_chain :
    ∀ (l : List (ℝ × ℝ)) (prev : ℝ × ℝ), List.Chain FarApart prev l → dedupAux prev l = l
  | [], _, _ => rfl
  | c :: rest, prev, h => by
      rcases List.chain_cons.mp h with ⟨hfar, hrest⟩
      rw [dedupAux,
        if_pos (show (1e-9 : ℝ) < |c.1 - prev.1| ∨ (1e-9 : ℝ) < |c.2 - prev.2| from hfar),
        dedupAux_eq_of_chain rest c hrest]

/-- Collapsing consecutive duplicates is idempotent. -/
lemma dedup_idem (l : List (ℝ × ℝ)) :
    remove_duplicate_consecutive_points (remove_duplicate_consecutive_points l) =
      remove_duplicate_consecutive_points l := by
  cases l with
  | nil => rfl
  | cons c rest =>
      rw [remove_duplicate_consecutive_points, remove_duplicate_consecutive_points,
        dedupAux_eq_of_chain _ c (chain_dedupAux rest c)]

/-- Re-running the selective ring snap on its own output (with a
nearest-point query that fixes the points it returns) leaves the ring
unchanged, and the second pass counts zero snapped points. -/
lemma snap_selective_pass_idem (nearestOnRef : ℝ × ℝ → ℝ × ℝ)
    (hproj : ∀ p, nearestOnRef (nearestOnRef p) = nearestOnRef p)
    (markers : List (ℝ × ℝ)) (maxSnapKm proxKm : ℝ) (coords : List (ℝ × ℝ)) :
    snap_linestring_coordinates_selective nearestOnRef markers maxSnapKm proxKm
        (snap_linestring_coordinates_selective nearestOnRef markers maxSnapKm proxKm coords) =
      snap_linestring_coordinates_selective nearestOnRef markers maxSnapKm proxKm coords ∧
    numSnapped nearestOnRef markers maxSnapKm proxKm
        (snap_linestring_coordinates_selective nearestOnRef markers maxSnapKm proxKm coords) = 0 := by
  set f := snapVertexSelective nearestOnRef markers maxSnapKm proxKm with hf
  have hfix : ∀ x ∈ snap_linestring_coordinates_selective nearestOnRef markers
      maxSnapKm proxKm coords, f x = x := by
    intro x hx
    have hx2 : x ∈ coords.map f := mem_of_mem_dedup hx
    rcases List.mem_map.mp hx2 with ⟨y, -, hy⟩
    rw [← hy, hf]
    exact snapVertexSelective_idem nearestOnRef hproj markers maxSnapKm proxKm y
  constructor
  · conv_lhs => rw [snap_linestring_coordinates_selective]
    rw [map_eq_self_of_fixed f _ hfix]
    unfold snap_linestring_coordinates_selective
    exact dedup_idem _
  · unfold numSnapped
    rw [List.length_eq_zero, List.filter_eq_nil_iff]
    intro a ha
    have := hfix a ha
    rw [hf] at this
    simp [this]

open scoped Classical in
/-- The Polygon case of the per-feature loop of refine_coastline_features
(coastline_snapping.py lines 286-396): snap the exterior ring
selectively; when no point moved (points_snapped = 0, line 352) keep the
original feature; when the snapped geometry is invalid, repair it with
shapely buffer(0) (lines 354-374) and keep the original feature when the
repair still yields an invalid geometry; otherwise emit the snapped (or
repaired) geometry.  The validity test is_valid and the zero-buffer
repair are external shapely operations, passed in as parameters. -/
noncomputable def refinePolygonFeature (nearestOnRef : ℝ × ℝ → ℝ × ℝ)
    (isValid : PolygonG → Bool) (buffer0 : PolygonG → PolygonG)
    (markers : List (ℝ × ℝ)) (maxSnapKm proxKm : ℝ) (poly : PolygonG) : PolygonG :=
  if 0 < numSnapped nearestOnRef markers maxSnapKm proxKm poly.exterior then
    if isValid (refinePolygonGeometry nearestOnRef markers maxSnapKm proxKm poly) then
      refinePolygonGeometry nearestOnRef markers maxSnapKm proxKm poly
    else if isValid
        (buffer0 (refinePolygonGeometry nearestOnRef markers maxSnapKm proxKm poly)) then
      buffer0 (refinePolygonGeometry nearestOnRef markers maxSnapKm proxKm poly)
    else poly
  else poly

/-- C9 (amended): re-running the selective coastline snapping with the
same reference coastline (a nearest-point query fixing the points it
returns), the same markers and the same distances leaves every snapped
ring coordinate list unchanged and counts zero snapped points on the
second pass; consequently every feature whose first-pass geometry was
emitted without the successful zero-buffer repair is unchanged by a
second pass.  A feature that went through the successful repair branch
is not covered: the repair can introduce vertices that are not fixed
points of the snap (see the counterexample). -/
theorem C9_snap_idempotent (nearestOnRef : ℝ × ℝ → ℝ × ℝ)
    (hproj : ∀ p, nearestOnRef (nearestOnRef p) = nearestOnRef p)
    (isValid : PolygonG → Bool) (buffer0 : PolygonG → PolygonG)
    (markers : List (ℝ × ℝ)) (maxSnapKm proxKm : ℝ) (coords : List (ℝ × ℝ))
    (poly : PolygonG) :
    snap_linestring_coordinates_selective nearestOnRef markers maxSnapKm proxKm
        (snap_linestring_coordinates_selective nearestOnRef markers maxSnapKm proxKm coords) =
      snap_linestring_coordinates_selective nearestOnRef markers maxSnapKm proxKm coords ∧
    numSnapped nearestOnRef markers maxSnapKm proxKm
        (snap_linestring_coordinates_selective nearestOnRef markers maxSnapKm proxKm coords) = 0 ∧
    (numSnapped nearestOnRef markers maxSnapKm proxKm poly.exterior = 0 ∨
       isValid (refinePolygonGeometry nearestOnRef markers maxSnapKm proxKm poly) = true ∨
       isValid (buffer0 (refinePolygonGeometry nearestOnRef markers maxSnapKm proxKm poly)) =
         false →
     refinePolygonFeature nearestOnRef isValid buffer0 markers maxSnapKm proxKm
         (refinePolygonFeature nearestOnRef isValid buffer0 markers maxSnapKm proxKm poly) =
       refinePolygonFeature nearestOnRef isValid buffer0 markers maxSnapKm proxKm poly) := by
  refine ⟨(snap_selective_pass_idem nearestOnRef hproj markers maxSnapKm proxKm coords).1,
    (snap_selective_pass_idem nearestOnRef hproj markers maxSnapKm proxKm coords).2, ?_⟩
  intro hcond
  by_cases hn : 0 < numSnapped nearestOnRef markers maxSnapKm proxKm poly.exterior
  · have hz : numSnapped nearestOnRef markers maxSnapKm proxKm
        ((refinePolygonGeometry nearestOnRef markers maxSnapKm proxKm poly).exterior) = 0 :=
      (snap_selective_pass_idem nearestOnRef hproj markers maxSnapKm proxKm poly.exterior).2
    have hvalid_case : isValid (refinePolygonGeometry nearestOnRef markers maxSnapKm
        proxKm poly) = true →
        refinePolygonFeature nearestOnRef isValid buffer0 markers maxSnapKm proxKm
            (refinePolygonFeature nearestOnRef isValid buffer0 markers maxSnapKm proxKm poly) =
          refinePolygonFeature nearestOnRef isValid buffer0 markers maxSnapKm proxKm poly := by
      intro hv
      have hF : refinePolygonFeature nearestOnRef isValid buffer0 markers maxSnapKm proxKm
          poly = refinePolygonGeometry nearestOnRef markers maxSnapKm proxKm poly := by
        unfold refinePolygonFeature
        rw [if_pos hn, if_pos hv]
      rw [hF]
      have hn2 : ¬ 0 < numSnapped nearestOnRef markers maxSnapKm proxKm
          ((refinePolygonGeometry nearestOnRef markers maxSnapKm proxKm poly).exterior) := by
        rw [hz]
        norm_num
      unfold refinePolygonFeature
      rw [if_neg hn2]
    rcases hcond with h0 | hv | hb
    · omega
    · exact hvalid_case hv
    · cases hv2 : isValid (refinePolygonGeometry nearestOnRef markers maxSnapKm proxKm poly) with
      | true => exact hvalid_case hv2
      | false =>
          have hF : refinePolygonFeature nearestOnRef isValid buffer0 markers maxSnapKm
              proxKm poly = poly := by
            unfold refinePolygonFeature
            rw [if_pos hn, if_neg (by rw [hv2]; exact Bool.false_ne_true), if_neg (by
              rw [hb]; exact Bool.false_ne_true)]
          rw [hF, hF]
  · have hF : refinePolygonFeature nearestOnRef isValid buffer0 markers maxSnapKm proxKm
        poly = poly := by
      unfold refinePolygonFeature
      rw [if_neg hn]
    rw [hF, hF]

/-- Witness for C9 at a concrete input: the identity nearest-point query
(whose fixed-point hypothesis holds by reflexivity), the always-true
validity test (so the repair branch is not taken, discharging the
feature-level hypothesis), on a one-vertex ring. -/
theorem C9_witness :
    (∀ p : ℝ × ℝ, (fun q : ℝ × ℝ => q) ((fun q : ℝ × ℝ => q) p) = (fun q : ℝ × ℝ => q) p) ∧
    ((fun _ : PolygonG => true)
       (refinePolygonGeometry (fun q : ℝ × ℝ => q) [] 10 25 ⟨[((0 : ℝ), (0 : ℝ))], []⟩) =
      true) ∧
    refinePolygonFeature (fun q => q) (fun _ => true) (fun g => g) [] 10 25
        (refinePolygonFeature (fun q => q) (fun _ => true) (fun g => g) [] 10 25
          ⟨[((0 : ℝ), (0 : ℝ))], []⟩) =
      refinePolygonFeature (fun q => q) (fun _ => true) (fun g => g) [] 10 25
        ⟨[((0 : ℝ), (0 : ℝ))], []⟩ :=
  ⟨fun _ => rfl, rfl,
   (C9_snap_idempotent (fun q => q) (fun _ => rfl) (fun _ => true) (fun g => g) [] 10 25
       [((0 : ℝ), (0 : ℝ))] ⟨[((0 : ℝ), (0 : ℝ))], []⟩).2.2 (Or.inr (Or.inl rfl))⟩

/-- The mercator y coordinate of a point at latitude 0 is 0: the clamp
keeps 0, tan(pi/4) = 1 and log 1 = 0. -/
lemma merc_y_at_lat_zero :
    Real.log (Real.tan (Real.pi / 4 + radians (clampLat 0) / 2)) * R_EARTH = 0 := by
  have h0 : clampLat 0 = 0 := by
    unfold clampLat
    norm_num
  rw [h0]
  unfold radians
  norm_num [Real.tan_pi_div_four]

/-- At latitude 0 the mercator distance reduces to the arc length of the
longitude difference. -/
lemma mercDistKm_lat_zero (a b : ℝ) :
    mercDistKm (a, 0) (b, 0) = |a - b| * (Real.pi * R_EARTH / 180) / 1000 := by
  unfold mercDistKm lonlat_to_webmercator
  simp only
  rw [merc_y_at_lat_zero, sub_self]
  have hx : radians a * R_EARTH - radians b * R_EARTH = (a - b) * (Real.pi * R_EARTH / 180) := by
    unfold radians
    ring
  rw [hx]
  rw [show ((0 : ℝ)) ^ 2 = 0 by norm_num, add_zero, Real.sqrt_sq_eq_abs, abs_mul,
    abs_of_nonneg (div_nonneg (mul_nonneg Real.pi_pos.le R_EARTH_pos.le) (by norm_num))]

/-- A numeric bound on lat-0 mercator distances via pi < 3.15. -/
lemma mercDistKm_lat_zero_le (a b K : ℝ) (hK : |a - b| * (3.15 * R_EARTH / 180) / 1000 ≤ K) :
    mercDistKm (a, 0) (b, 0) ≤ K := by
  rw [mercDistKm_lat_zero]
  have hpi : Real.pi < 3.15 := Real.pi_lt_d2
  have habs : (0 : ℝ) ≤ |a - b| := abs_nonneg _
  have h1 : Real.pi * R_EARTH / 180 ≤ 3.15 * R_EARTH / 180 := by
    have := R_EARTH_pos
    nlinarith
  have h2 : |a - b| * (Real.pi * R_EARTH / 180) ≤ |a - b| * (3.15 * R_EARTH / 180) :=
    mul_le_mul_of_nonneg_left h1 habs
  have h3 : |a - b| * (Real.pi * R_EARTH / 180) / 1000 ≤
      |a - b| * (3.15 * R_EARTH / 180) / 1000 := by
    linarith
  linarith

/-- A concrete nearest-point query: a behaviour of the external shapely
nearest_points permitted by its interface, used for the counterexample
run. -/
noncomputable def demoNearestOnRef : ℝ × ℝ → ℝ × ℝ := fun p =>
  if p = ((0 : ℝ), (0 : ℝ)) then (1, 0)
  else if p = ((3 : ℝ), (0 : ℝ)) then (4, 0)
  else p

/-- A concrete validity test: only the ring [(1,0)] is invalid (a
behaviour of the external shapely is_valid permitted by its interface). -/
noncomputable def demoIsValid (g : PolygonG) : Bool :=
  decide (g.exterior ≠ [((1 : ℝ), (0 : ℝ))])

/-- A concrete zero-buffer repair: it returns a valid polygon whose
vertex is not a fixed point of the snap (a behaviour of the external
shapely buffer(0) permitted by its interface: the repair of an invalid
ring can introduce new vertices). -/
noncomputable def demoBuffer0 : PolygonG → PolygonG := fun _ =>
  ⟨[((3 : ℝ), (0 : ℝ))], []⟩

lemma demoNearestOnRef_at_zero : demoNearestOnRef ((0 : ℝ), (0 : ℝ)) = (1, 0) := by
  unfold demoNearestOnRef
  rw [if_pos rfl]

lemma demoNearestOnRef_at_three : demoNearestOnRef ((3 : ℝ), (0 : ℝ)) = (4, 0) := by
  unfold demoNearestOnRef
  rw [if_neg (by
    intro h
    have h1 := congrArg Prod.fst h
    norm_num at h1), if_pos rfl]

lemma demo_dist_zero_one : mercDistKm ((0 : ℝ), (0 : ℝ)) ((1 : ℝ), (0 : ℝ)) ≤ 200 := by
  apply mercDistKm_lat_zero_le
  rw [show |(0 : ℝ) - 1| = 1 by norm_num]
  norm_num [R_EARTH]

lemma demo_dist_three_zero : mercDistKm ((3 : ℝ), (0 : ℝ)) ((0 : ℝ), (0 : ℝ)) ≤ 400 := by
  apply mercDistKm_lat_zero_le
  rw [show |(3 : ℝ) - 0| = 3 by norm_num]
  norm_num [R_EARTH]

lemma demo_dist_three_four : mercDistKm ((3 : ℝ), (0 : ℝ)) ((4 : ℝ), (0 : ℝ)) ≤ 200 := by
  apply mercDistKm_lat_zero_le
  rw [show |(3 : ℝ) - 4| = 1 by norm_num]
  norm_num [R_EARTH]

/-- In the counterexample run the vertex (0,0) passes both checks and is
snapped to the reference point (1,0). -/
lemma demo_snap_at_zero :
    snapVertexSelective demoNearestOnRef [((0 : ℝ), (0 : ℝ))] 200 400 ((0 : ℝ), (0 : ℝ)) =
      (1, 0) := by
  have hcond : isNearSift [((0 : ℝ), (0 : ℝ))] 400 ((0 : ℝ), (0 : ℝ)) ∧
      isOnCoastline demoNearestOnRef (200 * 2) ((0 : ℝ), (0 : ℝ)) := by
    constructor
    · exact ⟨((0 : ℝ), (0 : ℝ)), List.mem_cons_self _ _, by
        rw [mercDistKm_self]
        norm_num⟩
    · show mercDistKm ((0 : ℝ), (0 : ℝ)) (demoNearestOnRef ((0 : ℝ), (0 : ℝ))) ≤ 200 * 2
      rw [demoNearestOnRef_at_zero]
      have := demo_dist_zero_one
      linarith
  unfold snapVertexSelective snap_point_to_coastline
  rw [if_pos hcond, demoNearestOnRef_at_zero, if_pos demo_dist_zero_one]

/-- In the counterexample run the vertex (3,0) injected by the repair
also passes both checks and is snapped to the reference point (4,0). -/
lemma demo_snap_at_three :
    snapVertexSelective demoNearestOnRef [((0 : ℝ), (0 : ℝ))] 200 400 ((3 : ℝ), (0 : ℝ)) =
      (4, 0) := by
  have hcond : isNearSift [((0 : ℝ), (0 : ℝ))] 400 ((3 : ℝ), (0 : ℝ)) ∧
      isOnCoastline demoNearestOnRef (200 * 2) ((3 : ℝ), (0 : ℝ)) := by
    constructor
    · exact ⟨((0 : ℝ), (0 : ℝ)), List.mem_cons_self _ _, demo_dist_three_zero⟩
    · show mercDistKm ((3 : ℝ), (0 : ℝ)) (demoNearestOnRef ((3 : ℝ), (0 : ℝ))) ≤ 200 * 2
      rw [demoNearestOnRef_at_three]
      have := demo_dist_three_four
      linarith
  unfold snapVertexSelective snap_point_to_coastline
  rw [if_pos hcond, demoNearestOnRef_at_three, if_pos demo_dist_three_four]

lemma demo_snapring_zero :
    snap_linestring_coordinates_selective demoNearestOnRef [((0 : ℝ), (0 : ℝ))] 200 400
      [((0 : ℝ), (0 : ℝ))] = [((1 : ℝ), (0 : ℝ))] := by
  unfold snap_linestring_coordinates_selective
  rw [List.map_cons, List.map_nil, demo_snap_at_zero]
  rfl

lemma demo_snapring_three :
    snap_linestring_coordinates_selective demoNearestOnRef [((0 : ℝ), (0 : ℝ))] 200 400
      [((3 : ℝ), (0 : ℝ))] = [((4 : ℝ), (0 : ℝ))] := by
  unfold snap_linestring_coordinates_selective
  rw [List.map_cons, List.map_nil, demo_snap_at_three]
  rfl

lemma demo_numsnapped_zero_pos :
    0 < numSnapped demoNearestOnRef [((0 : ℝ), (0 : ℝ))] 200 400 [((0 : ℝ), (0 : ℝ))] := by
  have hne : snapVertexSelective demoNearestOnRef [((0 : ℝ), (0 : ℝ))] 200 400
      ((0 : ℝ), (0 : ℝ)) ≠ ((0 : ℝ), (0 : ℝ)) := by
    rw [demo_snap_at_zero]
    intro h
    have h1 := congrArg Prod.fst h
    norm_num at h1
  unfold numSnapped
  apply List.length_pos_of_mem
  exact List.mem_filter.mpr ⟨List.mem_singleton_self _, by
    simp only [decide_eq_true_eq]
    exact hne⟩

lemma demo_numsnapped_three_pos :
    0 < numSnapped demoNearestOnRef [((0 : ℝ), (0 : ℝ))] 200 400 [((3 : ℝ), (0 : ℝ))] := by
  have hne : snapVertexSelective demoNearestOnRef [((0 : ℝ), (0 : ℝ))] 200 400
      ((3 : ℝ), (0 : ℝ)) ≠ ((3 : ℝ), (0 : ℝ)) := by
    rw [demo_snap_at_three]
    intro h
    have h1 := congrArg Prod.fst h
    norm_num at h1
  unfold numSnapped
  apply List.length_pos_of_mem
  exact List.mem_filter.mpr ⟨List.mem_singleton_self _, by
    simp only [decide_eq_true_eq]
    exact hne⟩

/-- First pass of the counterexample run: the vertex (0,0) is snapped to
(1,0), the snapped ring is judged invalid, and the zero-buffer repair
emits the polygon with ring [(3,0)]. -/
lemma demo_refine_pass1 :
    refinePolygonFeature demoNearestOnRef demoIsValid demoBuffer0 [((0 : ℝ), (0 : ℝ))] 200 400
      ⟨[((0 : ℝ), (0 : ℝ))], []⟩ = ⟨[((3 : ℝ), (0 : ℝ))], []⟩ := by
  have hgeom : refinePolygonGeometry demoNearestOnRef [((0 : ℝ), (0 : ℝ))] 200 400
      ⟨[((0 : ℝ), (0 : ℝ))], []⟩ = ⟨[((1 : ℝ), (0 : ℝ))], []⟩ := by
    unfold refinePolygonGeometry
    rw [demo_snapring_zero]
  unfold refinePolygonFeature
  rw [hgeom]
  rw [show (⟨[((0 : ℝ), (0 : ℝ))], []⟩ : PolygonG).exterior = [((0 : ℝ), (0 : ℝ))] from rfl]
  have hv1 : demoIsValid ⟨[((1 : ℝ), (0 : ℝ))], []⟩ = false := by
    simp [demoIsValid]
  have hv3 : demoIsValid (demoBuffer0 ⟨[((1 : ℝ), (0 : ℝ))], []⟩) = true := by
    unfold demoBuffer0 demoIsValid
    rw [decide_eq_true_eq]
    intro h
    injection h with h2 h3
    have h4 := congrArg Prod.fst h2
    norm_num at h4
  rw [if_pos demo_numsnapped_zero_pos,
    if_neg (by rw [hv1]; exact Bool.false_ne_true), if_pos hv3]
  rfl

/-- Second pass of the counterexample run: the repaired vertex (3,0) is
near the marker and the reference, so it is snapped to (4,0), the ring
is judged valid, and the emitted geometry differs from the first pass. -/
lemma demo_refine_pass2 :
    refinePolygonFeature demoNearestOnRef demoIsValid demoBuffer0 [((0 : ℝ), (0 : ℝ))] 200 400
      ⟨[((3 : ℝ), (0 : ℝ))], []⟩ = ⟨[((4 : ℝ), (0 : ℝ))], []⟩ := by
  have hgeom : refinePolygonGeometry demoNearestOnRef [((0 : ℝ), (0 : ℝ))] 200 400
      ⟨[((3 : ℝ), (0 : ℝ))], []⟩ = ⟨[((4 : ℝ), (0 : ℝ))], []⟩ := by
    unfold refinePolygonGeometry
    rw [demo_snapring_three]
  unfold refinePolygonFeature
  rw [hgeom]
  rw [show (⟨[((3 : ℝ), (0 : ℝ))], []⟩ : PolygonG).exterior = [((3 : ℝ), (0 : ℝ))] from rfl]
  have hv4 : demoIsValid ⟨[((4 : ℝ), (0 : ℝ))], []⟩ = true := by
    unfold demoIsValid
    rw [decide_eq_true_eq]
    intro h
    injection h with h2 h3
    have h4 := congrArg Prod.fst h2
    norm_num at h4
  rw [if_pos demo_numsnapped_three_pos, if_pos hv4]

/-- C9 counterexample: a concrete run of the Polygon branch of
refine_coastline_features in which the first pass goes through the
successful zero-buffer repair, whose output vertex is snapped again by
the second pass — applying coastline snapping twice does not produce the
same feature geometry as applying it once. -/
theorem C9_counterexample :
    refinePolygonFeature demoNearestOnRef demoIsValid demoBuffer0 [((0 : ℝ), (0 : ℝ))] 200 400
        (refinePolygonFeature demoNearestOnRef demoIsValid demoBuffer0 [((0 : ℝ), (0 : ℝ))]
          200 400 ⟨[((0 : ℝ), (0 : ℝ))], []⟩) ≠
      refinePolygonFeature demoNearestOnRef demoIsValid demoBuffer0 [((0 : ℝ), (0 : ℝ))] 200 400
        ⟨[((0 : ℝ), (0 : ℝ))], []⟩ := by
  rw [demo_refine_pass1, demo_refine_pass2]
  intro h
  have h1 : ([((4 : ℝ), (0 : ℝ))] : List (ℝ × ℝ)) = [((3 : ℝ), (0 : ℝ))] :=
    congrArg PolygonG.exterior h
  injection h1 with h2 h3
  have h4 := congrArg Prod.fst h2
  norm_num at h4

/- ------------------------------------------------------------------ -/
/- Preprocessing pipeline (color_extraction.py lines 83-267, calling
   the operation library preprocessing.py).  The image operations are
   external library calls (skimage); the embedding makes each of them a
   constructor of an expression type, so the value returned by the
   Python function is captured as the exact tree of operations that was
   applied to the input, and the execution order as a trace.           -/
/- ------------------------------------------------------------------ -/

/-- Symbolic image values: the input array and the image operations
applied by preprocess.  claheOnLab stands for the inlined block of lines
197-209 (rgb2lab, equalize_adapthist on the L channel, lab2rgb), which
the spec calls CLAHE-via-LAB.  The mask argument that
white_balance_percentile_white_patch, white_balance_gray_world and
percentile_normalize receive for their statistics is always the input
validity mask at those call sites (the mask variable is only reassigned
at step 8, after the last of those calls), so it is not tracked in the
constructors. -/
inductive Img where
  | input
  | clip01 (e : Img)
  | srgbToLinear (e : Img)
  | flatFieldCorrection (e : Img) (sigma : ℚ) (normalize assumeLinear : Bool)
  | whiteBalanceGrayWorld (e : Img)
  | whiteBalancePercentile (e : Img) (percentile : ℚ)
  | denoiseBilateralOp (e : Img) (sigmaColor sigmaSpatial : ℚ)
  | denoiseNlMeans (e : Img)
  | linearToSrgb (e : Img)
  | claheOnLab (e : Img) (clipLimit : ℚ) (kernel : ℕ × ℕ)
  | percentileNormalizeOp (e : Img) (pLow pHigh : ℚ)
deriving DecidableEq, Repr

/-- Symbolic mask values: the input validity mask, or the foreground mask
built by build_paper_background_mask from a (symbolic) RGB image. -/
inductive MaskV where
  | original
  | paperForeground (img : Img) (thresholdDeltaE : ℚ)
deriving DecidableEq, Repr

/-- Tags of the toggleable operations, recorded in execution order. -/
inductive OpTag where
  | linearize
  | flatField
  | whiteBalance
  | denoise
  | clahe
  | percentileNorm
  | paperMask
deriving DecidableEq, Repr

/-- The keyword arguments of preprocess (color_extraction.py lines
86-107). -/
structure PreprocessConfig where
  enableLinearize : Bool
  enableFlatField : Bool
  flatFieldSigma : ℚ
  enableWhiteBalance : Bool
  wbGrayWorld : Bool
  wbPercentile : ℚ
  enablePercentileNorm : Bool
  normPLow : ℚ
  normPHigh : ℚ
  enableBackgroundMask : Bool
  bgMethodPaper : Bool
  paperThresholdDeltaE : ℚ
  enableDenoise : Bool
  denoiseMethodBilateral : Bool
  bilateralSigmaColor : ℚ
  bilateralSigmaSpatial : ℚ
  enableClahe : Bool
  claheClipLimit : ℚ
  claheKernelSize : ℕ × ℕ

/-- Embedding of preprocess (color_extraction.py lines 83-267), debug
branches omitted (they only write PNG files).  Returns the image the
Python function returns (line 267: np.clip(work, 0.0, 1.0)), the mask it
returns, and the trace of toggleable operations actually executed, in
execution order.  Note two source facts this embedding preserves: the
percentile normalization block is duplicated (lines 228-237 and
240-249), and the return value is the linear-space work array, not the
rgb_srgb / rgb_out array the CLAHE and normalization steps produce
(rgb_out, line 263, is computed and dropped). -/
def preprocessE (cfg : PreprocessConfig) : Img × MaskV × List OpTag :=
  let rgb := Img.clip01 Img.input
  let step1 :=
    if cfg.enableLinearize then (Img.srgbToLinear rgb, [OpTag.linearize])
    else (rgb, [])
  let step2 :=
    if cfg.enableFlatField then
      (Img.flatFieldCorrection step1.1 cfg.flatFieldSigma false cfg.enableLinearize,
       [OpTag.flatField])
    else (step1.1, [])
  let step3 :=
    if cfg.enableWhiteBalance then
      (if cfg.wbGrayWorld then Img.whiteBalanceGrayWorld step2.1
       else Img.whiteBalancePercentile step2.1 cfg.wbPercentile,
       [OpTag.whiteBalance])
    else (step2.1, [])
  let step4 :=
    if cfg.enableDenoise then
      (if cfg.denoiseMethodBilateral then
         Img.denoiseBilateralOp step3.1 cfg.bilateralSigmaColor cfg.bilateralSigmaSpatial
       else Img.denoiseNlMeans step3.1,
       [OpTag.denoise])
    else (step3.1, [])
  let work := step4.1
  let step5 :=
    if cfg.enableClahe then
      (Img.clip01 (Img.claheOnLab
         (Img.clip01 (if cfg.enableLinearize then Img.linearToSrgb work else work))
         cfg.claheClipLimit cfg.claheKernelSize),
       [OpTag.clahe])
    else
      (Img.clip01 (if cfg.enableLinearize then Img.linearToSrgb work else work), [])
  let step6 :=
    if cfg.enablePercentileNorm then
      (Img.percentileNormalizeOp step5.1 cfg.normPLow cfg.normPHigh, [OpTag.percentileNorm])
    else (step5.1, [])
  let step7 :=
    if cfg.enablePercentileNorm then
      (Img.percentileNormalizeOp step6.1 cfg.normPLow cfg.normPHigh, [OpTag.percentileNorm])
    else (step6.1, [])
  let step8 :=
    if cfg.enableBackgroundMask && cfg.bgMethodPaper then
      (MaskV.paperForeground step7.1 cfg.paperThresholdDeltaE, [OpTag.paperMask])
    else (MaskV.original, [])
  let _rgbOut := Img.clip01 step7.1
  (Img.clip01 work, step8.1,
   step1.2 ++ step2.2 ++ step3.2 ++ step4.2 ++ step5.2 ++ step6.2 ++ step7.2 ++ step8.2)

/-- The default keyword arguments of preprocess (lines 86-107): every
toggle enabled, percentile white balance, bilateral denoise, paper
background method. -/
def defaultPreprocessConfig : PreprocessConfig :=
  ⟨true, true, 120, true, false, 99.5, true, 1, 99, true, true, 10,
   true, true, 0.04, 2, true, 0.02, (8, 8)⟩

/-- C2 (evaluation at the failing input): with every operation enabled at
the default parameters, preprocess executes the per-channel percentile
normalization twice (its block is duplicated at lines 228-237 and
240-249), and the image it returns is the clipped linear-space work
array after denoising: the CLAHE-via-LAB and the two percentile
normalizations never reach the returned image, which therefore is not
the sRGB image the contract demands.  (The mask, in contrast, is the
input validity mask AND-ed with the paper-background exclusion computed
from the fully processed sRGB image.) -/
theorem C2_preprocess_default_run :
    preprocessE defaultPreprocessConfig =
      (Img.clip01 (Img.denoiseBilateralOp
         (Img.whiteBalancePercentile
           (Img.flatFieldCorrection (Img.srgbToLinear (Img.clip01 Img.input)) 120 false true)
           99.5)
         0.04 2),
       MaskV.paperForeground
         (Img.percentileNormalizeOp
           (Img.percentileNormalizeOp
             (Img.clip01 (Img.claheOnLab
               (Img.clip01 (Img.linearToSrgb (Img.denoiseBilateralOp
                 (Img.whiteBalancePercentile
                   (Img.flatFieldCorrection (Img.srgbToLinear (Img.clip01 Img.input)) 120 false true)
                   99.5)
                 0.04 2)))
               0.02 (8, 8)))
             1 99)
           1 99)
         10,
       [OpTag.linearize, OpTag.flatField, OpTag.whiteBalance, OpTag.denoise,
        OpTag.clahe, OpTag.percentileNorm, OpTag.percentileNorm, OpTag.paperMask]) := by
  rfl

/- ------------------------------------------------------------------ -/
/- extract_colors control flow (color_extraction.py lines 595-777).   -/
/- ------------------------------------------------------------------ -/

/-- Python exceptions relevant to the embedded fragments. -/
inductive PyExc where
  | valueError (msg : String)
  | nameError (missing : String)
  | attributeError (msg : String)
deriving DecidableEq, Repr

/-- The shape of a decoded image as distinguished by
load_image_rgb_alpha_mask (color_extraction.py lines 30-68): 2-D
grayscale, 3-channel RGB, 4-channel RGBA, or anything else. -/
inductive DecodedShape where
  | grayscale
  | rgb
  | rgba
  | unsupported
deriving DecidableEq, Repr

/-- load_image_rgb_alpha_mask: grayscale is replicated to RGB with an
all-true mask, RGBA keeps its alpha (mask = alpha > 0), RGB gets an
all-true mask; any other shape raises ValueError.  Only the success /
failure structure matters downstream, so the payload records whether the
image carried an alpha channel. -/
def load_image_rgb_alpha_mask (shape : DecodedShape) : Except PyExc Bool :=
  match shape with
  | DecodedShape.grayscale => Except.ok false
  | DecodedShape.rgb => Except.ok false
  | DecodedShape.rgba => Except.ok true
  | DecodedShape.unsupported =>
      Except.error (PyExc.valueError "Unsupported image format")

/-- The result dictionary extract_colors is meant to return (lines
767-776); it is never produced, see extract_colors_run. -/
structure ExtractColorsResult where
  colors_detected : List String
  ratios : List (String × ℚ)
  normalized_features_count : ℕ
deriving DecidableEq, Repr

/-- The preprocess keyword arguments hard-coded in extract_colors (lines
681-699): linearize and denoise and percentile normalization on,
flat field, white balance and CLAHE off, background mask nominally on
but with bg_method = "none" so the paper mask never runs. -/
def extractColorsPreprocessConfig : PreprocessConfig :=
  ⟨true, false, 120, false, false, 99.5, true, 1, 99, true, false, 10,
   true, true, 0.04, 2, false, 0.005, (8, 8)⟩

/-- Embedding of the control flow of extract_colors (lines 595-777): it
loads the image (line 671), preprocesses it (lines 678-702), converts to
LAB (line 704), reloads the raw image (lines 710-711), and then calls
dominant_bins_lab with the keyword argument top_n = top_n (line 718).
No local or module-level variable named top_n exists (the parameter is
top_n_bins), so evaluating the argument raises
NameError: name top_n is not defined, before any bin, selection or mask
is computed (selected, best_idx and valid at lines 730-734 are likewise
never defined).  The function therefore never returns a result. -/
def extract_colors_run (shape : DecodedShape) : Except PyExc ExtractColorsResult :=
  match load_image_rgb_alpha_mask shape with
  | Except.error e => Except.error e
  | Except.ok _hasAlpha =>
      let _pre := preprocessE extractColorsPreprocessConfig
      Except.error (PyExc.nameError "top_n")

/-- C1: for every decodable input image (in particular every image whose
valid pixels all share one color), extract_colors raises NameError on
the undefined name top_n and returns no ColorLayer at all, instead of
one layer with ratio 1 covering the validity mask. -/
theorem C1_extract_colors_always_raises (shape : DecodedShape)
    (h : shape ≠ DecodedShape.unsupported) :
    extract_colors_run shape = Except.error (PyExc.nameError "top_n") := by
  cases shape with
  | grayscale => rfl
  | rgb => rfl
  | rgba => rfl
  | unsupported => exact absurd rfl h

/-- Witness for C1 at the concrete input shape: a plain RGB image. -/
theorem C1_witness :
    (DecodedShape.rgb ≠ DecodedShape.unsupported) ∧
      extract_colors_run DecodedShape.rgb = Except.error (PyExc.nameError "top_n") :=
  ⟨by decide, C1_extract_colors_always_raises DecodedShape.rgb (by decide)⟩

/- ------------------------------------------------------------------ -/
/- Gazetteer lookup (cities_validation.py) and the per-token city loop
   of process_map_extraction (tasks.py lines 196-254).                -/
/- ------------------------------------------------------------------ -/

/-- One gazetteer record of the in-memory city map (cities_validation.py
lines 41-59). -/
structure CityCandidate where
  name : String
  lat : ℚ
  lon : ℚ
  country : String
  population : Option ℤ
deriving DecidableEq, Repr

/-- A word character of the token regex (backslash-w, hyphen or
apostrophe), restricted to ASCII text. -/
def isWordChar (c : Char) : Bool :=
  c.isAlphanum || c = '_' || c = '-' || c.toNat = 39

/-- Maximal runs of word characters.  This embeds the findall of the
word regex of cities_validation.py line 32 for ASCII text whose
hyphens and apostrophes sit between word characters (the inputs in this
development); the word-boundary subtleties of the regex at run edges are
outside its scope. -/
def wordTokensAux : List Char → List Char → List (List Char)
  | [], acc => if acc.isEmpty then [] else [acc.reverse]
  | c :: cs, acc =>
      if isWordChar c then wordTokensAux cs (c :: acc)
      else if acc.isEmpty then wordTokensAux cs []
      else acc.reverse :: wordTokensAux cs []

def wordTokens (s : String) : List String :=
  (wordTokensAux s.toList []).map (fun l => String.mk l)

/-- ASCII lower-casing, character by character. -/
def lowerAscii (s : String) : String :=
  String.mk (s.toList.map Char.toLower)

/-- Whitespace trimming on both ends of a character list. -/
def trimChars (l : List Char) : List Char :=
  ((l.dropWhile Char.isWhitespace).reverse.dropWhile Char.isWhitespace).reverse

/-- The normalize helper of cities_validation.py lines 35-38 (NFKD, strip
combining marks, casefold, strip), restricted to ASCII text where it is
lower-casing plus whitespace trimming. -/
def normalizeName (s : String) : String :=
  String.mk (trimChars ((lowerAscii s).toList))

/-- Lookup in the prebuilt city map: the key-in-map test followed by
get(key, []) of lines 100-101. -/
def cityMapLookup (gaz : List (String × List CityCandidate)) (key : String) :
    List CityCandidate :=
  match gaz.find? (fun e => e.1 == key) with
  | some e => e.2
  | none => []

/-- One match of detect_cities_from_text (lines 131-139). -/
structure CityMatch where
  text : String
  start_token : ℕ
  end_token : ℕ
  candidates : List CityCandidate
deriving DecidableEq, Repr

/-- The inner for-n loop of detect_cities_from_text (lines 94-142), with
use_search disabled as in find_first_city: try the n-gram phrases of
decreasing length starting at the current token; on a hit return the
match and the number of consumed tokens. -/
def tryNgrams (gaz : List (String × List CityCandidate)) (toks : List String)
    (i : ℕ) : ℕ → Option (CityMatch × ℕ)
  | 0 => none
  | n + 1 =>
      let phrase := String.intercalate " " (toks.take (n + 1))
      let cs := cityMapLookup gaz (normalizeName phrase)
      if cs.isEmpty then tryNgrams gaz toks i n
      else some (⟨phrase, i, i + (n + 1) - 1, cs⟩, n + 1)

/-- The while-i loop of detect_cities_from_text (lines 90-144), run on
the token list with fuel equal to its length (each iteration consumes at
least one token, so that fuel always suffices). -/
def detectGo (gaz : List (String × List CityCandidate)) :
    ℕ → ℕ → List String → List CityMatch
  | 0, _, _ => []
  | _, _, [] => []
  | fuel + 1, i, toks@(_ :: rest) =>
      match tryNgrams gaz toks i (min 4 toks.length) with
      | some (m, n) => m :: detectGo gaz fuel (i + n) (toks.drop n)
      | none => detectGo gaz fuel (i + 1) rest

/-- detect_cities_from_text (lines 73-145) with the default max_ngram = 4
and use_search = False. -/
def detect_cities_from_text (gaz : List (String × List CityCandidate))
    (text : String) : List CityMatch :=
  let toks := wordTokens text
  detectGo gaz toks.length 0 toks

/-- The population key of find_first_city (lines 198-202):
int(population or 0), i.e. 0 when the record has none. -/
def popKey (c : CityCandidate) : ℤ :=
  match c.population with
  | some p => p
  | none => 0

/-- Python max(candidates, key=pop_key): iterate, replacing the current
best only on a strictly larger key, so the first maximum wins ties (no
lexicographic tie-break exists in the source). -/
def maxByPop : CityCandidate → List CityCandidate → CityCandidate
  | best, [] => best
  | best, c :: rest => maxByPop (if popKey best < popKey c then c else best) rest

/-- The best-candidate record returned by find_first_city (lines
205-210).  Note it has fields name, lat, lon and matched_text only: no
found field. -/
structure FoundCity where
  name : String
  lat : ℚ
  lon : ℚ
  matched_text : String
deriving DecidableEq, Repr

/-- The for-m loop of find_first_city (lines 193-210): skip matches
without candidates, return the best-by-population candidate of the first
match with candidates. -/
def findFirstCityGo : List CityMatch → Option FoundCity
  | [] => none
  | m :: rest =>
      match m.candidates with
      | [] => findFirstCityGo rest
      | c :: cs =>
          some ⟨(maxByPop c cs).name, (maxByPop c cs).lat, (maxByPop c cs).lon, m.text⟩

/-- find_first_city (cities_validation.py lines 181-212): the best local
candidate, or none (the Python function returns the value False) when
nothing matches. -/
def find_first_city (gaz : List (String × List CityCandidate)) (text : String) :
    Option FoundCity :=
  findFirstCityGo (detect_cities_from_text gaz text)

/-- The persisted city-feature payload built in tasks.py lines 218-236.
The JSON properties are name, show, mapElementType, color_name,
start_date, end_date; the geometry is the point (lon, lat). -/
structure CityFeature where
  name : String
  showFlag : Bool
  mapElementType : String
  color_name : String
  start_date : String
  end_date : String
  lon : ℚ
  lat : ℚ
deriving DecidableEq, Repr

/-- Feature construction for a token whose find_first_city call returned
a candidate record (tasks.py lines 218-236).  name is
candidate.get(name) or tok (so the token when the name is empty);
show is bool(candidate.get(found)): the record returned by
find_first_city has no found key, so get returns None and the flag is
always False; the coordinates are candidate.get(lon) or 0.0 and
candidate.get(lat) or 0.0, which equal the record values (the or only
fires when the value is 0.0, and then yields 0.0 as well). -/
def buildCityFeature (tok : String) (cand : FoundCity) : CityFeature :=
  ⟨if cand.name = "" then tok else cand.name,
   false, "point", "black", "0-01-01", "5000-01-01", cand.lon, cand.lat⟩

/-- The per-token loop of process_map_extraction (tasks.py lines
202-251): for each token call find_first_city; on a candidate build and
persist one city feature; when find_first_city returns False (a
gazetteer miss) the subsequent candidate.get(name) call raises
AttributeError (bool has no attribute get), which escapes to the outer
handler at line 253 and aborts city detection for every remaining token.
Returns the features persisted before the abort and the exception, if
one occurred. -/
def cityDetectionRun (gaz : List (String × List CityCandidate)) :
    List String → List CityFeature × Option PyExc
  | [] => ([], none)
  | tok :: rest =>
      match find_first_city gaz tok with
      | some cand =>
          let tail := cityDetectionRun gaz rest
          (buildCityFeature tok cand :: tail.1, tail.2)
      | none =>
          ([], some (PyExc.attributeError "bool object has no attribute get"))

/-- A concrete one-entry gazetteer for the failing run (integer-valued
coordinates keep the kernel evaluation cheap; the run does not depend on
the numbers). -/
def demoGazetteer : List (String × List CityCandidate) :=
  [("paris", [⟨"Paris", 49, 2, "FR", some 2100000⟩])]

/-- C3 (evaluation at the failing input): on the OCR tokens Paris and
zzz, with a gazetteer that knows paris, the pipeline persists exactly
one feature, whose show flag is False even though the token was found,
and then raises AttributeError on the miss instead of emitting a
found=false point at (0, 0) — so neither the one-PlacePoint-per-token
guarantee nor the found flag of the claim holds on the code. -/
theorem C3_city_loop_run :
    cityDetectionRun demoGazetteer ["Paris", "zzz"] =
      ([⟨"Paris", false, "point", "black", "0-01-01", "5000-01-01", 2, 49⟩],
       some (PyExc.attributeError "bool object has no attribute get")) := by
  decide

/- ------------------------------------------------------------------ -/
/- File-extension validation (file_utils.py) and the decode/validate
   order of process_map_extraction (tasks.py lines 173-177).          -/
/- ------------------------------------------------------------------ -/

/-- The tuple supported_file_ext of validate_file_extension
(file_utils.py lines 5-10): only .jpg, .jpeg and .png. -/
def supported_file_ext : List String := [".jpg", ".jpeg", ".png"]

/-- The index of the last occurrence of a character in a list, if any. -/
def lastIdxOf (c : Char) : List Char → Option ℕ
  | [] => none
  | x :: xs =>
      match lastIdxOf c xs with
      | some i => some (i + 1)
      | none => if x = c then some 0 else none

/-- os.path.splitext, extension part, for POSIX paths: the suffix from
the last dot after the last slash, provided some non-dot character
stands between them (so dotfiles such as .bashrc have no extension). -/
def splitextExt (path : String) : String :=
  let l := path.toList
  let sepIdx : ℤ := match lastIdxOf '/' l with
    | some i => (i : ℤ)
    | none => -1
  let dotIdx : ℤ := match lastIdxOf '.' l with
    | some i => (i : ℤ)
    | none => -1
  if sepIdx < dotIdx then
    let base := (l.drop (sepIdx + 1).toNat).take (dotIdx - sepIdx - 1).toNat
    if base.any (fun c => c ≠ '.') then String.mk (l.drop dotIdx.toNat) else ""
  else ""

/-- validate_file_extension (file_utils.py lines 4-12): the lower-cased
extension must be one of the supported ones. -/
def validate_file_extension (path : String) : Bool :=
  supported_file_ext.contains (lowerAscii (splitextExt path))

/-- The observable step order of process_map_extraction around image
loading (tasks.py lines 173-177). -/
inductive JobStep where
  | decodeImage
  | validateExtension
  | proceed
  | failUnsupported
deriving DecidableEq, Repr

/-- tasks.py lines 173-177 as an event trace: cv2.imread decodes the
bytes first (line 173), only then is the extension validated (line 175)
and a ValueError raised when it is not allowed (line 177). -/
def extractionJobPrologue (filename : String) : List JobStep :=
  [JobStep.decodeImage, JobStep.validateExtension] ++
    (if validate_file_extension filename then [JobStep.proceed]
     else [JobStep.failUnsupported])

/-- C5 counterexample: the extension .bmp belongs to the accepted set of
the claim, yet validate_file_extension rejects it; and on such a file
the job decodes the image bytes first and only fails afterwards, as the
trace shows. -/
theorem C5_counterexample :
    validate_file_extension "map.bmp" = false ∧
      extractionJobPrologue "map.bmp" =
        [JobStep.decodeImage, JobStep.validateExtension, JobStep.failUnsupported] := by
  constructor <;> decide

/-- C5 (amended): a file is accepted exactly when its lower-cased
extension is .jpg, .jpeg or .png; and for every filename the job decodes
the image (cv2.imread) before the extension check, so a rejected job
fails after the decode step, never before it. -/
theorem C5_extension_validation (filename : String) :
    (validate_file_extension filename = true ↔
       lowerAscii (splitextExt filename) ∈ supported_file_ext) ∧
    extractionJobPrologue filename =
      JobStep.decodeImage :: JobStep.validateExtension ::
        (if validate_file_extension filename then [JobStep.proceed]
         else [JobStep.failUnsupported]) := by
  constructor
  · unfold validate_file_extension
    exact List.elem_iff
  · rfl

end Atlas
